import Mathlib

/-!
Shallow embedding of the gRPC client-channel load-balancing policy layer
(`src/core/ext/filters/client_channel/lb_policy.h`) and proofs about its
specified behaviour.

The header in the repository defines the abstract `LoadBalancingPolicy`
contract.  The inline member functions present in the header (`Orphan`,
`ShutdownAndUnrefLocked`, `SetReresolutionClosureLocked`) are embedded
directly from their source.  The pure-virtual operations (`PickLocked`,
`CancelPickLocked`, `CancelMatchingPicksLocked`, `NotifyOnStateChangeLocked`,
`CheckConnectivityLocked`, `HandOffPendingPicksLocked`, `ShutdownLocked`) and
the out-of-line `TryReresolutionLocked` have no implementation in the
repository snapshot; for those, a reference implementation is modelled from
the specification's contract, with each such definition marked
`Modelled from the spec:`.

Modelling conventions:
* closures (`grpc_closure*`) and subchannels are identified by `Nat` ids,
  with `Option Nat` standing for a possibly-null pointer;
* `grpc_error*` is `GrpcError` (`ok` = `GRPC_ERROR_NONE`);
* a pick request's output slot and intrusive `next` linkage are represented
  by an explicit FIFO queue of `(request id, PickState)` pairs plus an
  append-only trace of fired completions, so "the completion callback fired"
  is an observable event of the model.
-/

namespace GrpcCore

/-- `grpc_connectivity_state` (connectivity_state.h). -/
inductive ConnectivityState where
  | idle
  | connecting
  | ready
  | transientFailure
  | shutdown
  deriving DecidableEq, Repr

/-- `grpc_error*`: `ok` models `GRPC_ERROR_NONE`, `err` a non-null error with
a descriptive message. -/
inductive GrpcError where
  | ok
  | err (msg : String)
  deriving DecidableEq, Repr

/-- The distinguished shutdown error used when failing queued picks during
teardown. -/
def shutdownError : GrpcError := GrpcError.err "Channel shutdown"

/-- `LoadBalancingPolicy::PickState` (lb_policy.h lines 68-101).  Input
fields only; the `connected_subchannel` output and the intrusive `next`
pointer are represented in `PolicyState` (queue + completion trace).
`initial_metadata_flags` is the bitmask word the `uint32_t*` field points at;
the metadata batch itself does not affect the queue semantics and is elided. -/
structure PickState where
  /-- The flags word used for selective cancellation matching. -/
  initial_metadata_flags : Nat
  /-- Closure to run when the pick completes, if not completed synchronously;
  `none` models a null `grpc_closure*`. -/
  on_complete : Option Nat
  /-- Callback set by the LB policy to be notified of trailing metadata. -/
  recv_trailing_metadata_ready : Option Nat
  /-- Slot for the original trailing-metadata callback; must be non-null when
  `recv_trailing_metadata_ready` is non-null. -/
  original_recv_trailing_metadata_ready : Option Nat
  /-- Pointer the channel fills with the call's trailing metadata; may be
  null without suppressing the callback. -/
  recv_trailing_metadata : Option Nat
  deriving DecidableEq, Repr

/-- One fired completion callback: which request, which closure ran, the
`connected_subchannel` output it observed, and the error it was given. -/
structure Completion where
  req : Nat
  closure : Option Nat
  connected_subchannel : Option Nat
  error : GrpcError
  deriving DecidableEq, Repr

/-- State of one policy instance, as observable through the contract: the
FIFO queue of pending picks, the append-only trace of fired completions, the
trace of pick attempts it has observed (used to state hand-off ordering), the
aggregate connectivity snapshot, the set of READY subchannels it could pick
from, and the re-resolution closure slot (`request_reresolution_`). -/
structure PolicyState where
  readySubchannels : List Nat
  pickQueue : List (Nat × PickState)
  completions : List Completion
  pickAttempts : List Nat
  connectivity : ConnectivityState
  connectivityError : GrpcError
  request_reresolution : Option Nat
  deriving DecidableEq, Repr

/-- Result of `PickLocked`: the returned bool (`completed`), the
`connected_subchannel` output slot, the `*error` output, and the updated
policy state. -/
structure PickResult where
  completed : Bool
  connected_subchannel : Option Nat
  error : GrpcError
  st : PolicyState
  deriving DecidableEq, Repr

/-- Modelled from the spec: `PickLocked` is pure virtual in lb_policy.h; the
policy implementations are not in the repository snapshot.  Per the contract
(lb_policy.h lines 116-127 and spec 4.1): if a result is known immediately
(a READY subchannel exists, pick-first style) return true with the selection;
otherwise, if `on_complete` is non-null, enqueue the request and return
false (Queued); if `on_complete` is null, fail synchronously (return true
with `*error` set and a null subchannel) and never enqueue.  Every
submission is recorded in `pickAttempts`. -/
def PickLocked (st : PolicyState) (id : Nat) (p : PickState) : PickResult :=
  let st1 := { st with pickAttempts := st.pickAttempts ++ [id] }
  match st1.readySubchannels.head? with
  | some sc => { completed := true, connected_subchannel := some sc,
                 error := GrpcError.ok, st := st1 }
  | none =>
    match p.on_complete with
    | some _ =>
        { completed := false, connected_subchannel := none,
          error := GrpcError.ok,
          st := { st1 with pickQueue := st1.pickQueue ++ [(id, p)] } }
    | none =>
        { completed := true, connected_subchannel := none,
          error := GrpcError.err "Pick failed: not ready and no on_complete callback",
          st := st1 }

/-- Remove the first queue entry carrying the given request id, returning its
payload and the remaining queue, or `none` if the id is not queued. -/
def removeFirst : List (Nat × PickState) → Nat → Option (PickState × List (Nat × PickState))
  | [], _ => none
  | q :: rest, id =>
    if q.1 = id then some (q.2, rest)
    else
      match removeFirst rest id with
      | none => none
      | some (p, rest2) => some (p, q :: rest2)

/-- Modelled from the spec: `CancelPickLocked` is pure virtual in
lb_policy.h (lines 129-133); implementations are not in the snapshot.  Per
the contract: if the request is queued, remove it and invoke its
`on_complete` with a null `connected_subchannel` and the supplied error;
no effect if it is not (or no longer) queued. -/
def CancelPickLocked (st : PolicyState) (id : Nat) (e : GrpcError) : PolicyState :=
  match removeFirst st.pickQueue id with
  | none => st
  | some (p, rest) =>
      { st with pickQueue := rest,
                completions := st.completions ++ [⟨id, p.on_complete, none, e⟩] }

/-- The completion fired when a queued pick is failed with error `e`. -/
def failCompletion (q : Nat × PickState) (e : GrpcError) : Completion :=
  ⟨q.1, q.2.on_complete, none, e⟩

/-- Whether a queued pick matches the bulk-cancellation predicate
`(flags AND mask) == eq`. -/
def matchesFlags (mask meq : Nat) (q : Nat × PickState) : Bool :=
  q.2.initial_metadata_flags &&& mask == meq

/-- Modelled from the spec: `CancelMatchingPicksLocked` is pure virtual in
lb_policy.h (lines 135-141); implementations are not in the snapshot.  Per
the contract: fail (null subchannel, supplied error) and remove every queued
request whose flags word ANDed with `mask` equals `meq`; leave the rest
queued and already-fired completions untouched. -/
def CancelMatchingPicksLocked (st : PolicyState) (mask meq : Nat) (e : GrpcError) :
    PolicyState :=
  { st with
    pickQueue := st.pickQueue.filter (fun q => !(matchesFlags mask meq q)),
    completions := st.completions ++
      (st.pickQueue.filter (matchesFlags mask meq)).map (fun q => failCompletion q e) }

/-- Modelled from the spec: `ShutdownLocked` is pure virtual in lb_policy.h
(lines 209-212); implementations are not in the snapshot.  Per the contract:
fail every still-queued pick (null subchannel, shutdown error) — those handed
off earlier are no longer queued — release all subchannel references, and
transition the connectivity state to SHUTDOWN. -/
def ShutdownLocked (st : PolicyState) : PolicyState :=
  { st with
    pickQueue := [],
    completions := st.completions ++ st.pickQueue.map (fun q => failCompletion q shutdownError),
    readySubchannels := [],
    connectivity := ConnectivityState.shutdown,
    connectivityError := shutdownError }

/-- Modelled from the spec: `CheckConnectivityLocked` is pure virtual in
lb_policy.h (lines 149-152); implementations are not in the snapshot.  Per
the contract: a synchronous snapshot read of the aggregate state and its
associated error. -/
def CheckConnectivityLocked (st : PolicyState) : ConnectivityState × GrpcError :=
  (st.connectivity, st.connectivityError)

/-- Modelled from the spec: `HandOffPendingPicksLocked` is pure virtual in
lb_policy.h (lines 154-156); implementations are not in the snapshot.  Per
the contract: re-submit every currently queued pick as a fresh pick against
`newPolicy`, preserving FIFO order of original submission, and leave the old
policy with an empty queue.  Returns (old policy state, new policy state). -/
def HandOffPendingPicksLocked (old nw : PolicyState) : PolicyState × PolicyState :=
  let nw2 := old.pickQueue.foldl (fun acc q => (PickLocked acc q.1 q.2).st) nw
  ({ old with pickQueue := [] }, nw2)

/-- The completions fired so far for request `id`, oldest first. -/
def completionsFor (st : PolicyState) (id : Nat) : List Completion :=
  st.completions.filter (fun c => c.req == id)

/-! ### Connectivity-state subscription (NotifyOnStateChangeLocked)

The subscription machinery lives in the `grpc_connectivity_state_tracker`
each policy implementation embeds (connectivity_state.cc), which is not in
the repository snapshot; it is modelled from the spec here. -/

/-- One registered one-shot subscription: the value the subscriber's
`grpc_connectivity_state*` target held at registration, and the closure to
schedule when the aggregate state next differs from it. -/
structure StateWatcher where
  seen : ConnectivityState
  closure : Nat
  deriving DecidableEq, Repr

/-- Aggregate connectivity-state tracker: the current state, the at most one
pending subscription, and the trace of scheduled subscription callbacks,
each paired with the state value written into the subscriber's
`grpc_connectivity_state*` target just before the closure was scheduled. -/
structure ConnTracker where
  cur : ConnectivityState
  watcher : Option StateWatcher
  fired : List (Nat × ConnectivityState)
  deriving DecidableEq, Repr

/-- Modelled from the spec: `NotifyOnStateChangeLocked` is pure virtual in
lb_policy.h (lines 143-147); the tracker implementation is not in the
snapshot.  Per the contract: record a one-shot subscription that fires when
the aggregate state differs from `*state` (= `seen`); if it already differs,
update the target and schedule the closure immediately.  The caller
maintains at most one outstanding subscription. -/
def NotifyOnStateChangeLocked (t : ConnTracker) (seen : ConnectivityState) (c : Nat) :
    ConnTracker :=
  if t.cur ≠ seen then { t with fired := t.fired ++ [(c, t.cur)] }
  else { t with watcher := some ⟨seen, c⟩ }

/-- Modelled from the spec: a connectivity-state transition of the policy
(the producer side of the tracker, not in the snapshot).  Sets the current
state; if the pending subscription's registration value now differs, updates
the subscriber's target to the new state, schedules its closure, and clears
the subscription. -/
def setConnectivityState (t : ConnTracker) (s : ConnectivityState) : ConnTracker :=
  match t.watcher with
  | some w =>
      if s ≠ w.seen then
        { cur := s, watcher := none, fired := t.fired ++ [(w.closure, s)] }
      else { t with cur := s }
  | none => { t with cur := s }

/-- Apply a sequence of connectivity-state transitions, oldest first. -/
def runUpdates (t : ConnTracker) (ss : List ConnectivityState) : ConnTracker :=
  ss.foldl setConnectivityState t

/-- The subscription callbacks scheduled so far for closure `c`. -/
def firesFor (t : ConnTracker) (c : Nat) : List (Nat × ConnectivityState) :=
  t.fired.filter (fun pr => pr.1 == c)

/-! ### Reference-counted lifecycle (Orphan / ShutdownAndUnrefLocked)

`Orphan` and `ShutdownAndUnrefLocked` are defined inline in lb_policy.h
(lines 174-180 and 219-223) and are embedded from that source.  The
surrounding refcount mechanics (`InternallyRefCounted::Unref`) deletes the
object when the count reaches zero. -/

/-- Observable lifecycle events, in order of occurrence. -/
inductive Event where
  | shutdownRan
  | destroyed
  deriving DecidableEq, Repr

/-- A closure scheduled on the policy's combiner.  `Orphan` schedules exactly
one kind: the static `ShutdownAndUnrefLocked` thunk bound to `this`. -/
inductive CombinerClosure where
  | shutdownAndUnref
  deriving DecidableEq, Repr

/-- A policy object: its refcount, its policy state, the closures it has
scheduled onto its combiner (in order), whether it has been deleted, and the
trace of lifecycle events. -/
structure PolicyObj where
  refs : Nat
  st : PolicyState
  combinerQueue : List CombinerClosure
  isDestroyed : Bool
  events : List Event
  deriving DecidableEq, Repr

/-- `InternallyRefCounted::Unref`: drop one reference; when the count
reaches zero the object is deleted. -/
def Unref (o : PolicyObj) : PolicyObj :=
  if o.refs ≤ 1 then
    { o with refs := 0, isDestroyed := true, events := o.events ++ [Event.destroyed] }
  else { o with refs := o.refs - 1 }

/-- `LoadBalancingPolicy::ShutdownAndUnrefLocked` (lb_policy.h lines
219-223): runs inside the combiner; invokes `ShutdownLocked()` on the policy,
then `Unref()`. -/
def ShutdownAndUnrefLocked (o : PolicyObj) : PolicyObj :=
  Unref { o with st := ShutdownLocked o.st, events := o.events ++ [Event.shutdownRan] }

/-- `LoadBalancingPolicy::Orphan` (lb_policy.h lines 174-180): called when
the last external reference is released; schedules `ShutdownAndUnrefLocked`
onto the combiner and does nothing else inline. -/
def Orphan (o : PolicyObj) : PolicyObj :=
  { o with combinerQueue := o.combinerQueue ++ [CombinerClosure.shutdownAndUnref] }

/-- The combiner executing one scheduled closure (serialized context). -/
def runCombinerClosure (c : CombinerClosure) (o : PolicyObj) : PolicyObj :=
  match c with
  | CombinerClosure.shutdownAndUnref => ShutdownAndUnrefLocked o

/-! ### Re-resolution -/

/-- `LoadBalancingPolicy::SetReresolutionClosureLocked` (lb_policy.h lines
182-186), embedded from source: `GPR_ASSERT(request_reresolution_ ==
nullptr)` aborts the process when the slot is already set (modelled as
`none`); otherwise stores the closure. -/
def SetReresolutionClosureLocked (st : PolicyState) (c : Nat) : Option PolicyState :=
  if st.request_reresolution.isSome then none
  else some { st with request_reresolution := some c }

/-- Modelled from the spec: `TryReresolutionLocked` is declared in
lb_policy.h (lines 214-216) but its body (lb_policy.cc) is not in the
snapshot.  Per the contract (spec 4.4): invoke the stored re-resolution
closure if one is present, otherwise do nothing; safe to call any number of
times and never aborts.  Returns the updated state and the list of closures
scheduled by this call. -/
def TryReresolutionLocked (st : PolicyState) (_error : GrpcError) : PolicyState × List Nat :=
  match st.request_reresolution with
  | some c => (st, [c])
  | none => (st, [])

/-! ### Trailing-metadata chaining -/

/-- One invocation of a trailing-metadata closure: which closure ran and
whether the `recv_trailing_metadata` pointer had been set to the call's
trailing metadata beforehand. -/
structure TrailingInvocation where
  closure : Nat
  metadata_set : Bool
  deriving DecidableEq, Repr

/-- Modelled from the spec: the client-channel code that invokes
`recv_trailing_metadata_ready` is not in the snapshot; modelled from the
`PickState` field documentation (lb_policy.h lines 80-92).  If the LB policy
set `recv_trailing_metadata_ready`, the channel points
`*recv_trailing_metadata` at the call's trailing metadata when that slot is
non-null — the callback is still invoked when it is null — and invokes the LB
callback, which must in turn invoke `*original_recv_trailing_metadata_ready`;
a null `original_recv_trailing_metadata_ready` is a contract violation
(`none` result, a null dereference). -/
def deliverTrailingMetadata (p : PickState) : Option (List TrailingInvocation) :=
  match p.recv_trailing_metadata_ready with
  | none => some []
  | some c =>
    match p.original_recv_trailing_metadata_ready with
    | none => none
    | some orig =>
        some [⟨c, p.recv_trailing_metadata.isSome⟩,
              ⟨orig, p.recv_trailing_metadata.isSome⟩]

/-! ### Helper lemmas -/

theorem removeFirst_eq_none (l : List (Nat × PickState)) (id : Nat)
    (h : ∀ q ∈ l, q.1 ≠ id) : removeFirst l id = none := by
  induction l with
  | nil => rfl
  | cons q rest ih =>
    have h1 : q.1 ≠ id := h q (List.mem_cons_self q rest)
    have h2 : ∀ x ∈ rest, x.1 ≠ id := fun x hx => h x (List.mem_cons_of_mem q hx)
    simp [removeFirst, h1, ih h2]

theorem removeFirst_append_fresh (l : List (Nat × PickState)) (id : Nat) (p : PickState)
    (h : ∀ q ∈ l, q.1 ≠ id) :
    removeFirst (l ++ [(id, p)]) id = some (p, l) := by
  induction l with
  | nil => simp [removeFirst]
  | cons q rest ih =>
    have h1 : q.1 ≠ id := h q (List.mem_cons_self q rest)
    have h2 : ∀ x ∈ rest, x.1 ≠ id := fun x hx => h x (List.mem_cons_of_mem q hx)
    simp [removeFirst, h1, ih h2]

theorem pickLocked_attempts (st : PolicyState) (id : Nat) (p : PickState) :
    (PickLocked st id p).st.pickAttempts = st.pickAttempts ++ [id] := by
  cases h : st.readySubchannels.head? <;> cases hc : p.on_complete <;>
    simp [PickLocked, h, hc]

theorem filter_fail_map (l : List (Nat × PickState)) (e : GrpcError) (id : Nat) :
    (l.map (fun q => failCompletion q e)).filter (fun c => c.req == id)
      = (l.filter (fun q => q.1 == id)).map (fun q => failCompletion q e) := by
  induction l with
  | nil => rfl
  | cons q rest ih =>
    simp only [failCompletion] at ih
    by_cases h : q.1 = id <;> simp [failCompletion, h, ih]

/-! ### Claim theorems -/

/-- C1: a `Pick` carrying no completion callback, when no result is known
immediately, fails synchronously: `PickLocked` returns true (Completed) with
the error output set and a null selected subchannel, and the request is
never placed in the queue (queue and completion trace are unchanged). -/
theorem pick_no_callback_fails_sync (st : PolicyState) (id : Nat) (p : PickState)
    (hready : st.readySubchannels = []) (hcb : p.on_complete = none) :
    (PickLocked st id p).completed = true ∧
    (PickLocked st id p).connected_subchannel = none ∧
    (PickLocked st id p).error ≠ GrpcError.ok ∧
    (PickLocked st id p).st.pickQueue = st.pickQueue ∧
    (PickLocked st id p).st.completions = st.completions := by
  simp [PickLocked, hready, hcb]

/-- A pick request with no completion callback and no metadata chaining. -/
def bareNoCallbackPick : PickState :=
  { initial_metadata_flags := 0, on_complete := none,
    recv_trailing_metadata_ready := none,
    original_recv_trailing_metadata_ready := none,
    recv_trailing_metadata := none }

/-- A freshly constructed policy with an empty address list: no READY
subchannels, nothing queued, nothing completed, IDLE. -/
def emptyPolicy : PolicyState :=
  { readySubchannels := [], pickQueue := [], completions := [],
    pickAttempts := [], connectivity := ConnectivityState.idle,
    connectivityError := GrpcError.ok, request_reresolution := none }

theorem pick_no_callback_fails_sync_witness :
    (PickLocked emptyPolicy 0 bareNoCallbackPick).completed = true ∧
    (PickLocked emptyPolicy 0 bareNoCallbackPick).connected_subchannel = none ∧
    (PickLocked emptyPolicy 0 bareNoCallbackPick).error ≠ GrpcError.ok ∧
    (PickLocked emptyPolicy 0 bareNoCallbackPick).st.pickQueue = emptyPolicy.pickQueue ∧
    (PickLocked emptyPolicy 0 bareNoCallbackPick).st.completions = emptyPolicy.completions :=
  pick_no_callback_fails_sync emptyPolicy 0 bareNoCallbackPick rfl rfl

/-- C6: `Orphan` never destroys the policy inline — it leaves the destroyed
flag, the policy state and the event trace untouched and schedules exactly
one combiner closure; when the combiner runs that closure (holding the last
reference), `ShutdownLocked` runs first and destruction follows, both inside
the serialized closure, with `shutdownRan` preceding `destroyed` in the
event trace. -/
theorem orphan_schedules_shutdown_then_unref (o : PolicyObj) (h : o.refs = 1) :
    (Orphan o).isDestroyed = o.isDestroyed ∧
    (Orphan o).st = o.st ∧
    (Orphan o).events = o.events ∧
    (Orphan o).refs = o.refs ∧
    (Orphan o).combinerQueue = o.combinerQueue ++ [CombinerClosure.shutdownAndUnref] ∧
    runCombinerClosure CombinerClosure.shutdownAndUnref o =
      { refs := 0, st := ShutdownLocked o.st, combinerQueue := o.combinerQueue,
        isDestroyed := true,
        events := o.events ++ [Event.shutdownRan, Event.destroyed] } := by
  refine ⟨rfl, rfl, rfl, rfl, rfl, ?_⟩
  simp [runCombinerClosure, ShutdownAndUnrefLocked, Unref, h]

/-- A live policy object holding its one internal self-reference. -/
def livePolicyObj : PolicyObj :=
  { refs := 1, st := emptyPolicy, combinerQueue := [], isDestroyed := false,
    events := [] }

theorem orphan_schedules_shutdown_then_unref_witness :
    (Orphan livePolicyObj).isDestroyed = livePolicyObj.isDestroyed ∧
    (Orphan livePolicyObj).st = livePolicyObj.st ∧
    (Orphan livePolicyObj).events = livePolicyObj.events ∧
    (Orphan livePolicyObj).refs = livePolicyObj.refs ∧
    (Orphan livePolicyObj).combinerQueue
      = livePolicyObj.combinerQueue ++ [CombinerClosure.shutdownAndUnref] ∧
    runCombinerClosure CombinerClosure.shutdownAndUnref livePolicyObj =
      { refs := 0, st := ShutdownLocked livePolicyObj.st,
        combinerQueue := livePolicyObj.combinerQueue, isDestroyed := true,
        events := livePolicyObj.events ++ [Event.shutdownRan, Event.destroyed] } :=
  orphan_schedules_shutdown_then_unref livePolicyObj rfl

/-- C8: setting the re-resolution closure while one is already stored trips
`GPR_ASSERT(request_reresolution_ == nullptr)` — the call aborts (modelled
as `none`) instead of overwriting the stored closure or returning a
recoverable error. -/
theorem set_reresolution_twice_aborts (st : PolicyState) (c : Nat)
    (h : st.request_reresolution ≠ none) :
    SetReresolutionClosureLocked st c = none := by
  simp [SetReresolutionClosureLocked, Option.isSome_iff_ne_none, h]

/-- A policy whose re-resolution closure slot is already occupied. -/
def policyWithReresolution : PolicyState :=
  { emptyPolicy with request_reresolution := some 5 }

theorem set_reresolution_twice_aborts_witness :
    SetReresolutionClosureLocked policyWithReresolution 7 = none :=
  set_reresolution_twice_aborts policyWithReresolution 7 (by decide)

/-- C9: `TryReresolutionLocked` schedules exactly the stored closure when one
is present and nothing otherwise, never changes the policy state, and a
repeated call behaves exactly like a first call — it is a total function
(never aborts), safe to invoke any number of times. -/
theorem try_reresolution_safe (st : PolicyState) (e e2 : GrpcError) :
    (TryReresolutionLocked st e).2 = st.request_reresolution.toList ∧
    (TryReresolutionLocked st e).1 = st ∧
    TryReresolutionLocked (TryReresolutionLocked st e).1 e2
      = TryReresolutionLocked st e2 := by
  cases h : st.request_reresolution <;> simp [TryReresolutionLocked, h]

/-- C10: when the LB policy has installed `recv_trailing_metadata_ready`,
delivery succeeds exactly when `original_recv_trailing_metadata_ready` is
also non-null (the interface precondition), and when it is, both the LB
callback and the original callback are invoked even if
`recv_trailing_metadata` is null — nullness only omits setting the metadata
pointer, it never suppresses the notification. -/
theorem trailing_metadata_chaining (p : PickState) (c : Nat)
    (h : p.recv_trailing_metadata_ready = some c) :
    (deliverTrailingMetadata p = none ↔
      p.original_recv_trailing_metadata_ready = none) ∧
    (∀ orig, p.original_recv_trailing_metadata_ready = some orig →
      ∃ invs, deliverTrailingMetadata p = some invs ∧
        (⟨c, p.recv_trailing_metadata.isSome⟩ : TrailingInvocation) ∈ invs ∧
        (⟨orig, p.recv_trailing_metadata.isSome⟩ : TrailingInvocation) ∈ invs) := by
  cases horig : p.original_recv_trailing_metadata_ready <;>
    simp [deliverTrailingMetadata, h, horig]

/-- A pick request whose LB trailing-metadata callback is chained correctly
but whose trailing-metadata slot is null. -/
def chainedTrailingPick : PickState :=
  { initial_metadata_flags := 0, on_complete := some 1,
    recv_trailing_metadata_ready := some 2,
    original_recv_trailing_metadata_ready := some 3,
    recv_trailing_metadata := none }

theorem trailing_metadata_chaining_witness :
    (deliverTrailingMetadata chainedTrailingPick = none ↔
      chainedTrailingPick.original_recv_trailing_metadata_ready = none) ∧
    (∀ orig, chainedTrailingPick.original_recv_trailing_metadata_ready = some orig →
      ∃ invs, deliverTrailingMetadata chainedTrailingPick = some invs ∧
        (⟨2, chainedTrailingPick.recv_trailing_metadata.isSome⟩ : TrailingInvocation) ∈ invs ∧
        (⟨orig, chainedTrailingPick.recv_trailing_metadata.isSome⟩ : TrailingInvocation) ∈ invs) :=
  trailing_metadata_chaining chainedTrailingPick 2 rfl

/-- C2: a pick that was queued (submitted with a completion callback while
no result was immediate) and then cancelled receives exactly one completion
— with a null `connected_subchannel` and the cancellation's error — and a
repeated cancel after that is a no-op, so the callback never fires twice and
never fires zero times. -/
theorem cancel_queued_pick_fires_exactly_once (st : PolicyState) (id : Nat)
    (p : PickState) (c : Nat) (e e2 : GrpcError)
    (hready : st.readySubchannels = [])
    (hcb : p.on_complete = some c)
    (hfresh : ∀ q ∈ st.pickQueue, q.1 ≠ id)
    (hnoc : completionsFor st id = []) :
    (PickLocked st id p).completed = false ∧
    completionsFor (CancelPickLocked (PickLocked st id p).st id e) id
      = [⟨id, some c, none, e⟩] ∧
    CancelPickLocked (CancelPickLocked (PickLocked st id p).st id e) id e2
      = CancelPickLocked (PickLocked st id p).st id e := by
  have hst : (PickLocked st id p).st
      = { st with pickAttempts := st.pickAttempts ++ [id],
                  pickQueue := st.pickQueue ++ [(id, p)] } := by
    simp [PickLocked, hready, hcb]
  have hrm : removeFirst (st.pickQueue ++ [(id, p)]) id = some (p, st.pickQueue) :=
    removeFirst_append_fresh st.pickQueue id p hfresh
  have hcancel : CancelPickLocked (PickLocked st id p).st id e
      = { st with pickAttempts := st.pickAttempts ++ [id],
                  pickQueue := st.pickQueue,
                  completions := st.completions ++ [⟨id, some c, none, e⟩] } := by
    rw [hst]
    simp [CancelPickLocked, hrm, hcb]
  refine ⟨by simp [PickLocked, hready, hcb], ?_, ?_⟩
  · rw [hcancel]
    simp only [completionsFor] at hnoc ⊢
    simp [List.filter_append, hnoc]
  · rw [hcancel]
    simp [CancelPickLocked, removeFirst_eq_none st.pickQueue id hfresh]

/-- A pick request with a completion callback (closure id 11) requesting
wait-for-ready style flags. -/
def queueablePick : PickState :=
  { initial_metadata_flags := 4, on_complete := some 11,
    recv_trailing_metadata_ready := none,
    original_recv_trailing_metadata_ready := none,
    recv_trailing_metadata := none }

/-- The error a caller supplies when cancelling a pick. -/
def cancelErr : GrpcError := GrpcError.err "Pick cancelled"

theorem cancel_queued_pick_fires_exactly_once_witness :
    (PickLocked emptyPolicy 3 queueablePick).completed = false ∧
    completionsFor (CancelPickLocked (PickLocked emptyPolicy 3 queueablePick).st 3 cancelErr) 3
      = [⟨3, some 11, none, cancelErr⟩] ∧
    CancelPickLocked
        (CancelPickLocked (PickLocked emptyPolicy 3 queueablePick).st 3 cancelErr) 3
        (GrpcError.err "Pick cancelled again")
      = CancelPickLocked (PickLocked emptyPolicy 3 queueablePick).st 3 cancelErr :=
  cancel_queued_pick_fires_exactly_once emptyPolicy 3 queueablePick 11 cancelErr
    (GrpcError.err "Pick cancelled again") rfl rfl (by simp [emptyPolicy]) rfl

/-- C3: `CancelMatchingPicksLocked mask meq e` removes and fails — null
subchannel, error `e` — exactly the queued requests whose flags satisfy
`(flags AND mask) = meq`; non-matching requests stay queued, already-fired
completions are preserved, and no request is added to the queue. -/
theorem cancel_matching_picks_iff (st : PolicyState) (mask meq : Nat) (e : GrpcError) :
    (∀ id p, (id, p) ∈ st.pickQueue →
      (p.initial_metadata_flags &&& mask = meq →
        (id, p) ∉ (CancelMatchingPicksLocked st mask meq e).pickQueue ∧
        (⟨id, p.on_complete, none, e⟩ : Completion)
          ∈ (CancelMatchingPicksLocked st mask meq e).completions) ∧
      (p.initial_metadata_flags &&& mask ≠ meq →
        (id, p) ∈ (CancelMatchingPicksLocked st mask meq e).pickQueue)) ∧
    (∀ cc ∈ st.completions, cc ∈ (CancelMatchingPicksLocked st mask meq e).completions) ∧
    (∀ id p, (id, p) ∈ (CancelMatchingPicksLocked st mask meq e).pickQueue →
      (id, p) ∈ st.pickQueue) := by
  refine ⟨fun id p hmem => ⟨fun hm => ⟨?_, ?_⟩, fun hm => ?_⟩,
          fun cc hc => ?_, fun id p hmem => ?_⟩
  · simp [CancelMatchingPicksLocked, List.mem_filter, matchesFlags, hm]
  · simp only [CancelMatchingPicksLocked, List.mem_append, List.mem_map]
    refine Or.inr ⟨(id, p), List.mem_filter.mpr ⟨hmem, by simp [matchesFlags, hm]⟩, ?_⟩
    simp [failCompletion]
  · simp only [CancelMatchingPicksLocked]
    exact List.mem_filter.mpr ⟨hmem, by simp [matchesFlags, hm]⟩
  · simp only [CancelMatchingPicksLocked, List.mem_append]
    exact Or.inl hc
  · have h2 : (id, p) ∈ st.pickQueue.filter (fun q => !(matchesFlags mask meq q)) := hmem
    exact (List.mem_filter.mp h2).1

/-- A queued pick whose flags word is 3 (matches mask 1 / eq 1). -/
def pickFlagged3 : PickState :=
  { initial_metadata_flags := 3, on_complete := some 11,
    recv_trailing_metadata_ready := none,
    original_recv_trailing_metadata_ready := none,
    recv_trailing_metadata := none }

/-- A queued pick whose flags word is 2 (does not match mask 1 / eq 1). -/
def pickFlagged2 : PickState :=
  { initial_metadata_flags := 2, on_complete := some 12,
    recv_trailing_metadata_ready := none,
    original_recv_trailing_metadata_ready := none,
    recv_trailing_metadata := none }

/-- A policy with two queued picks, ids 3 and 4. -/
def twoQueuedPolicy : PolicyState :=
  { emptyPolicy with pickQueue := [(3, pickFlagged3), (4, pickFlagged2)] }

theorem cancel_matching_picks_iff_witness :
    (3, pickFlagged3) ∉ (CancelMatchingPicksLocked twoQueuedPolicy 1 1 cancelErr).pickQueue ∧
    (⟨3, some 11, none, cancelErr⟩ : Completion)
      ∈ (CancelMatchingPicksLocked twoQueuedPolicy 1 1 cancelErr).completions ∧
    (4, pickFlagged2) ∈ (CancelMatchingPicksLocked twoQueuedPolicy 1 1 cancelErr).pickQueue := by
  have h := cancel_matching_picks_iff twoQueuedPolicy 1 1 cancelErr
  refine ⟨((h.1 3 pickFlagged3 (by decide)).1 (by decide)).1, ?_, ?_⟩
  · have := ((h.1 3 pickFlagged3 (by decide)).1 (by decide)).2
    simpa [pickFlagged3] using this
  · exact (h.1 4 pickFlagged2 (by decide)).2 (by decide)

/-- C4: after `ShutdownLocked`, `CheckConnectivityLocked` reports SHUTDOWN
with the shutdown error, the queue is empty, and every request that was
still queued at shutdown time (hand-off removes requests from the queue, so
handed-off requests are not among them) has received exactly one completion
with a null `connected_subchannel` and the shutdown error. -/
theorem shutdown_fails_queued_and_reports_shutdown (st : PolicyState) (id : Nat)
    (p : PickState)
    (hq : st.pickQueue.filter (fun q => q.1 == id) = [(id, p)])
    (hnoc : completionsFor st id = []) :
    CheckConnectivityLocked (ShutdownLocked st)
      = (ConnectivityState.shutdown, shutdownError) ∧
    (ShutdownLocked st).pickQueue = [] ∧
    completionsFor (ShutdownLocked st) id
      = [⟨id, p.on_complete, none, shutdownError⟩] := by
  refine ⟨rfl, rfl, ?_⟩
  simp only [completionsFor] at hnoc ⊢
  show (st.completions
      ++ st.pickQueue.map (fun q => failCompletion q shutdownError)).filter
        (fun cc => cc.req == id) = _
  rw [List.filter_append, hnoc, filter_fail_map, hq]
  simp [failCompletion]

theorem shutdown_fails_queued_and_reports_shutdown_witness :
    CheckConnectivityLocked (ShutdownLocked twoQueuedPolicy)
      = (ConnectivityState.shutdown, shutdownError) ∧
    (ShutdownLocked twoQueuedPolicy).pickQueue = [] ∧
    completionsFor (ShutdownLocked twoQueuedPolicy) 3
      = [⟨3, pickFlagged3.on_complete, none, shutdownError⟩] :=
  shutdown_fails_queued_and_reports_shutdown twoQueuedPolicy 3 pickFlagged3
    (by decide) rfl

theorem foldl_pick_attempts (l : List (Nat × PickState)) (acc : PolicyState) :
    (l.foldl (fun a q => (PickLocked a q.1 q.2).st) acc).pickAttempts
      = acc.pickAttempts ++ l.map (fun q => q.1) := by
  induction l generalizing acc with
  | nil => simp
  | cons q rest ih =>
    rw [List.foldl_cons, ih, pickLocked_attempts]
    simp

/-- C5: `HandOffPendingPicksLocked` re-submits every currently queued
request against the new policy in FIFO order of original submission — the
new policy's observed pick attempts extend by exactly the old queue's ids in
queue order — and leaves the old policy with an empty queue. -/
theorem handoff_preserves_fifo (old nw : PolicyState) :
    (HandOffPendingPicksLocked old nw).2.pickAttempts
      = nw.pickAttempts ++ old.pickQueue.map (fun q => q.1) ∧
    (HandOffPendingPicksLocked old nw).1.pickQueue = [] :=
  ⟨foldl_pick_attempts old.pickQueue nw, rfl⟩

/-- Invariant tying a registered subscription (closure `c`, registration
value `seen`) to the tracker: either the subscription is still pending and
has never fired, or it is gone and has fired at most once, with the fired
record carrying a state different from `seen`. -/
def watcherInv (c : Nat) (seen : ConnectivityState) (t : ConnTracker) : Prop :=
  (t.watcher = some ⟨seen, c⟩ ∧ firesFor t c = []) ∨
  (t.watcher = none ∧
    (firesFor t c = [] ∨ ∃ s, firesFor t c = [(c, s)] ∧ s ≠ seen))

theorem watcherInv_step (c : Nat) (seen : ConnectivityState) (t : ConnTracker)
    (h : watcherInv c seen t) (s : ConnectivityState) :
    watcherInv c seen (setConnectivityState t s) := by
  rcases h with ⟨hw, hf⟩ | ⟨hw, hf⟩
  · by_cases hs : s = seen
    · left
      have hfired : (setConnectivityState t s).fired = t.fired := by
        simp [setConnectivityState, hw, hs]
      refine ⟨by simp [setConnectivityState, hw, hs], ?_⟩
      simpa [firesFor, hfired] using hf
    · right
      refine ⟨by simp [setConnectivityState, hw, hs], Or.inr ⟨s, ?_, hs⟩⟩
      simp only [firesFor] at hf ⊢
      simp [setConnectivityState, hw, hs, List.filter_append, hf]
  · right
    refine ⟨?_, ?_⟩
    · cases hcur : t.watcher <;> simp [setConnectivityState, hw]
    · have : (setConnectivityState t s).fired = t.fired := by
        simp [setConnectivityState, hw]
      simpa [firesFor, this] using hf

theorem watcherInv_register (t : ConnTracker) (seen : ConnectivityState) (c : Nat)
    (hw : t.watcher = none) (hf : firesFor t c = []) :
    watcherInv c seen (NotifyOnStateChangeLocked t seen c) := by
  by_cases h : t.cur = seen
  · left
    have hfired : (NotifyOnStateChangeLocked t seen c).fired = t.fired := by
      simp [NotifyOnStateChangeLocked, h]
    refine ⟨by simp [NotifyOnStateChangeLocked, h], ?_⟩
    simpa [firesFor, hfired] using hf
  · right
    refine ⟨by simp [NotifyOnStateChangeLocked, h, hw], Or.inr ⟨t.cur, ?_, h⟩⟩
    simp only [firesFor] at hf ⊢
    simp [NotifyOnStateChangeLocked, h, List.filter_append, hf]

theorem watcherInv_run (c : Nat) (seen : ConnectivityState) (t : ConnTracker)
    (h : watcherInv c seen t) (ss : List ConnectivityState) :
    watcherInv c seen (runUpdates t ss) := by
  induction ss generalizing t with
  | nil => exact h
  | cons s rest ih => exact ih (setConnectivityState t s) (watcherInv_step c seen t h s)

/-- C7: a subscription registered via `NotifyOnStateChangeLocked` — on a
tracker with no outstanding subscription and a closure not yet scheduled —
fires at most once over any subsequent sequence of connectivity transitions,
and every firing carries a state value (the value written into the
subscriber's `grpc_connectivity_state*` target before the closure was
scheduled) different from the value held at registration. -/
theorem notify_on_state_change_at_most_once (t : ConnTracker)
    (seen : ConnectivityState) (c : Nat) (ss : List ConnectivityState)
    (hw : t.watcher = none) (hf : firesFor t c = []) :
    (firesFor (runUpdates (NotifyOnStateChangeLocked t seen c) ss) c).length ≤ 1 ∧
    ∀ pr ∈ firesFor (runUpdates (NotifyOnStateChangeLocked t seen c) ss) c,
      pr.2 ≠ seen := by
  have h := watcherInv_run c seen (NotifyOnStateChangeLocked t seen c)
    (watcherInv_register t seen c hw hf) ss
  rcases h with ⟨_, hfi⟩ | ⟨_, hfi | ⟨s, hfi, hs⟩⟩
  · simp [hfi]
  · simp [hfi]
  · refine ⟨by simp [hfi], fun pr hpr => ?_⟩
    rw [hfi] at hpr
    simp only [List.mem_singleton] at hpr
    rw [hpr]
    exact hs

/-- An idle tracker with no subscription and nothing fired. -/
def idleTracker : ConnTracker :=
  { cur := ConnectivityState.idle, watcher := none, fired := [] }

theorem notify_on_state_change_at_most_once_witness :
    (firesFor
        (runUpdates (NotifyOnStateChangeLocked idleTracker ConnectivityState.idle 9)
          [ConnectivityState.idle, ConnectivityState.connecting,
           ConnectivityState.ready]) 9).length ≤ 1 ∧
    ∀ pr ∈ firesFor
        (runUpdates (NotifyOnStateChangeLocked idleTracker ConnectivityState.idle 9)
          [ConnectivityState.idle, ConnectivityState.connecting,
           ConnectivityState.ready]) 9,
      pr.2 ≠ ConnectivityState.idle :=
  notify_on_state_change_at_most_once idleTracker ConnectivityState.idle 9
    [ConnectivityState.idle, ConnectivityState.connecting, ConnectivityState.ready]
    rfl rfl

end GrpcCore
